import Mathlib

/-
Verification of the wasla message-consumption framework (src/src/wasla).
The Python source is shallowly embedded: pure decision logic becomes Lean
functions, broker side effects (ack, reject, publish) and log calls become
explicit action lists, and Python exceptions become an explicit error type
carrying the exception class name and message.
-/

namespace Wasla

/-- JSON-like decoded values, as produced by json.loads on a message body. -/
inductive Json where
  | null
  | bool (b : Bool)
  | num (n : Int)
  | str (s : String)
  | arr (elems : List Json)
  | obj (fields : List (String × Json))

/-- A Python exception, identified by its class name and its message string.
The source raises builtin classes (Exception, ValueError, TypeError,
AttributeError) and pydantic raises ValidationError. -/
structure PyError where
  className : String
  message : String
deriving DecidableEq, Repr

/-- An inbound broker message as seen by the consumer (aio_pika
AbstractIncomingMessage): body (represented by its JSON decoding, since the
source treats it as opaque bytes that json.loads can decode), routing key,
optional message id, and headers. Header values are modelled as integers,
matching the only header the source reads and writes (x-retry-count, written
as the int retry_count + 1 and read back through int(...)). -/
structure InMessage where
  body : Json
  routing_key : String
  message_id : Option String
  headers : List (String × Int)

/-- Python str() of an optional message id: None prints as the word None. -/
def optStr : Option String → String
  | some s => s
  | none => "None"

/-- The dict lookup message.headers.get(key, d) in builder.py line 162,
followed by the int(...) conversion (identity on integer header values). -/
def headersGet (hs : List (String × Int)) (key : String) (d : Int) : Int :=
  match hs.find? (fun p => p.1 == key) with
  | some p => p.2
  | none => d

/-- Delivery mode of a published message (aio_pika DeliveryMode). -/
inductive PubDeliveryMode where
  | persistent
  | transient
deriving DecidableEq, Repr

/-- The retry message constructed in builder.py lines 167-171:
Message(message.body, delivery_mode=DeliveryMode.PERSISTENT, ...,
headers with x-retry-count set to retry_count + 1). -/
structure OutMessage where
  body : Json
  delivery_mode : PubDeliveryMode
  headers : List (String × Int)

/-- Outcome of one processing unit (the awaited task in __handle_completion):
either the handler chain returned normally or it raised an exception. -/
inductive Outcome where
  | success
  | failure (e : PyError)

/-- Broker and logger effects performed by __handle_completion, in order. -/
inductive CompletionAction where
  | ack
  | reject (requeue : Bool)
  | publish (m : OutMessage) (routing_key : String)
  | logError (msg : String)

/-- The log line of builder.py line 163. -/
def retryLogMsg (m : InMessage) (e : PyError) : String :=
  "Message " ++ optStr m.message_id ++ " failed, will undergo retry, " ++ e.message

/-- The log line of builder.py line 179. -/
def permFailMsg (m : InMessage) (k : Int) : String :=
  "Message " ++ optStr m.message_id ++ " failed after " ++ toString k ++ " retries"

/-- Embedding of Builder.__handle_completion (builder.py lines 156-180).
On success the original message is acked. On failure the retry count is read
from the x-retry-count header (default 0), the failure is logged, and then:
if the count is below 3 a new message with the same body, persistent delivery
mode and incremented counter is published under the original routing key and
the original is acked; otherwise a permanent failure is logged and the
original is rejected without requeue. -/
def handle_completion (m : InMessage) (outcome : Outcome) : List CompletionAction :=
  match outcome with
  | .success => [.ack]
  | .failure e =>
    let retry_count : Int := headersGet m.headers "x-retry-count" 0
    .logError (retryLogMsg m e) ::
      (if retry_count < 3 then
        [.publish ⟨m.body, .persistent, [("x-retry-count", retry_count + 1)]⟩ m.routing_key,
         .ack]
      else
        [.logError (permFailMsg m retry_count), .reject false])

/-- All publish actions of an action list, with their routing keys. -/
def publishesOf : List CompletionAction → List (OutMessage × String)
  | [] => []
  | .publish om rk :: rest => (om, rk) :: publishesOf rest
  | _ :: rest => publishesOf rest

/-- Number of ack actions in an action list. -/
def ackCount : List CompletionAction → Nat
  | [] => 0
  | .ack :: rest => ackCount rest + 1
  | _ :: rest => ackCount rest

/-- All reject actions of an action list, keeping their requeue flags. -/
def rejectsOf : List CompletionAction → List Bool
  | [] => []
  | .reject b :: rest => b :: rejectsOf rest
  | _ :: rest => rejectsOf rest

/-- Concrete message used to witness the retry path: retry counter 1. -/
def demoRetryMsg : InMessage :=
  { body := Json.obj [("order_id", Json.num 7)]
    routing_key := "svc.orders.created"
    message_id := some "m-1"
    headers := [("x-retry-count", 1)] }

/-- Concrete message used to witness the dead-letter path: retry counter 3. -/
def demoMaxMsg : InMessage :=
  { body := Json.obj [("order_id", Json.num 7)]
    routing_key := "svc.orders.created"
    message_id := some "m-2"
    headers := [("x-retry-count", 3)] }

/-- Concrete first-delivery message: no x-retry-count header. -/
def demoFreshMsg : InMessage :=
  { body := Json.obj [("order_id", Json.num 7)]
    routing_key := "svc.orders.created"
    message_id := some "m-3"
    headers := [] }

/-- Concrete handler exception. -/
def demoErr : PyError := ⟨"Exception", "boom"⟩

/-- C3: if a processing unit fails and the retry counter k read from the
x-retry-count header (default 0) is below 3, completion handling publishes
exactly one message — same body, persistent delivery mode, original routing
key, counter k + 1 — and acks the original delivery, issuing no reject. -/
theorem retry_below_max_republish_ack (m : InMessage) (e : PyError)
    (h : headersGet m.headers "x-retry-count" 0 < 3) :
    publishesOf (handle_completion m (.failure e)) =
      [(⟨m.body, .persistent,
          [("x-retry-count", headersGet m.headers "x-retry-count" 0 + 1)]⟩,
        m.routing_key)]
    ∧ ackCount (handle_completion m (.failure e)) = 1
    ∧ rejectsOf (handle_completion m (.failure e)) = [] := by
  simp only [handle_completion, if_pos h]
  exact ⟨rfl, rfl, rfl⟩

/-- Witness for C3 at a concrete message with retry counter 1. -/
theorem retry_below_max_republish_ack_witness :
    headersGet demoRetryMsg.headers "x-retry-count" 0 < 3
    ∧ (publishesOf (handle_completion demoRetryMsg (.failure demoErr)) =
        [(⟨demoRetryMsg.body, .persistent,
            [("x-retry-count", headersGet demoRetryMsg.headers "x-retry-count" 0 + 1)]⟩,
          demoRetryMsg.routing_key)]
       ∧ ackCount (handle_completion demoRetryMsg (.failure demoErr)) = 1
       ∧ rejectsOf (handle_completion demoRetryMsg (.failure demoErr)) = []) :=
  ⟨by decide, retry_below_max_republish_ack demoRetryMsg demoErr (by decide)⟩

/-- C4: if a processing unit fails and the retry counter is at least 3,
completion handling publishes nothing, issues no ack, rejects the original
delivery exactly once with requeue set to false, and logs the permanent
failure. -/
theorem retry_at_max_dead_letter (m : InMessage) (e : PyError)
    (h : 3 ≤ headersGet m.headers "x-retry-count" 0) :
    publishesOf (handle_completion m (.failure e)) = []
    ∧ ackCount (handle_completion m (.failure e)) = 0
    ∧ rejectsOf (handle_completion m (.failure e)) = [false]
    ∧ CompletionAction.logError (permFailMsg m (headersGet m.headers "x-retry-count" 0))
        ∈ handle_completion m (.failure e) := by
  simp only [handle_completion, if_neg (not_lt.mpr h)]
  refine ⟨rfl, rfl, rfl, ?_⟩
  exact List.mem_cons_of_mem _ (List.mem_cons_self _ _)

/-- Witness for C4 at a concrete message with retry counter 3. -/
theorem retry_at_max_dead_letter_witness :
    3 ≤ headersGet demoMaxMsg.headers "x-retry-count" 0
    ∧ (publishesOf (handle_completion demoMaxMsg (.failure demoErr)) = []
       ∧ ackCount (handle_completion demoMaxMsg (.failure demoErr)) = 0
       ∧ rejectsOf (handle_completion demoMaxMsg (.failure demoErr)) = [false]
       ∧ CompletionAction.logError
           (permFailMsg demoMaxMsg (headersGet demoMaxMsg.headers "x-retry-count" 0))
           ∈ handle_completion demoMaxMsg (.failure demoErr)) :=
  ⟨by decide, retry_at_max_dead_letter demoMaxMsg demoErr (by decide)⟩

/-- C5: if a processing unit succeeds on its first attempt (no retry counter
accumulated on the message), completion handling issues exactly one ack, zero
publishes and zero rejects. -/
theorem success_single_ack (m : InMessage)
    (_h : headersGet m.headers "x-retry-count" 0 = 0) :
    ackCount (handle_completion m .success) = 1
    ∧ publishesOf (handle_completion m .success) = []
    ∧ rejectsOf (handle_completion m .success) = [] :=
  ⟨rfl, rfl, rfl⟩

/-- Witness for C5 at a concrete message with no retry header. -/
theorem success_single_ack_witness :
    headersGet demoFreshMsg.headers "x-retry-count" 0 = 0
    ∧ (ackCount (handle_completion demoFreshMsg .success) = 1
       ∧ publishesOf (handle_completion demoFreshMsg .success) = []
       ∧ rejectsOf (handle_completion demoFreshMsg .success) = []) :=
  ⟨by decide, success_single_ack demoFreshMsg (by decide)⟩

/-- A Python attribute value of a Request instance. -/
inductive PyValue where
  | json (j : Json)
  | str (s : String)
  | pyNone

/-- Embedding of Request.__init__ (request.py lines 4-8): the constructor
stores the JSON-decoded message body in the attribute named message, plus
routing_key and message_id. No other attribute is ever assigned; in
particular there is no attribute named body. -/
structure Request where
  message : Json
  routing_key : String
  message_id : Option String

/-- The attribute dictionary of a Request instance, exactly the three
attributes assigned in Request.__init__. -/
def Request.attrs (r : Request) : List (String × PyValue) :=
  [("message", .json r.message),
   ("routing_key", .str r.routing_key),
   ("message_id", match r.message_id with | some s => .str s | none => .pyNone)]

/-- Python attribute access on a Request instance: a lookup in its attribute
dictionary, raising AttributeError when the name is absent. -/
def requestGetattr (r : Request) (name : String) : Except PyError PyValue :=
  match r.attrs.find? (fun p => p.1 == name) with
  | some p => .ok p.2
  | none => .error ⟨"AttributeError", "Request object has no attribute " ++ name⟩

/-- A pydantic model class, embedded by its two validation entry points used
in routing_middleware.py: model_validate on a decoded dict and
model_validate_json on any other value. -/
structure Schema (α : Type) where
  model_validate : Json → Except PyError α
  model_validate_json : PyValue → Except PyError α

/-- Parameter kinds distinguished by the signature inspection in
RoutingMiddleware.handle (inspect.Parameter kinds the code tests for). -/
inductive ParamKind where
  | positional_or_keyword
  | keyword_only

/-- An argument resolved for a handler call: the validated event model or
the raw request. -/
inductive Arg (α : Type) where
  | event (e : α)
  | request (r : Request)

/-- A registered handler, embedded by its signature (parameter names and
kinds, as reported by inspect.signature) and its behavior when called. -/
structure Handler (α : Type) where
  params : List (String × ParamKind)
  call : List (Arg α) → List (String × Arg α) → Except PyError Unit

/-- A route dict as built by Router.route: routing key, event schema and
handler. -/
structure Route (α : Type) where
  routing_key : String
  event_schema : Schema α
  handler : Handler α

/-- A record of one handler invocation: its positional and keyword
arguments. -/
structure Invocation (α : Type) where
  args : List (Arg α)
  kwargs : List (String × Arg α)

/-- An ack or reject call issued directly on the broker delivery. -/
inductive BrokerCall where
  | ack
  | reject (requeue : Bool)

/-- Result of RoutingMiddleware.handle on one request: the handler
invocations performed, the ack and reject calls issued by the dispatcher
itself (the source contains none, so this list is empty on every path), and
the exception propagated to the caller, if any. -/
structure HandleResult (α : Type) where
  invoked : List (Invocation α)
  broker : List BrokerCall
  error : Option PyError

/-- The positional argument list built by the loop over
sig.parameters in routing_middleware.py lines 23-31: each
POSITIONAL_OR_KEYWORD parameter named event or request appends the
corresponding value; other names contribute nothing. -/
def buildArgs {α : Type} (params : List (String × ParamKind)) (event : α)
    (request : Request) : List (Arg α) :=
  match params with
  | [] => []
  | (name, .positional_or_keyword) :: rest =>
    if name == "event" then Arg.event event :: buildArgs rest event request
    else if name == "request" then Arg.request request :: buildArgs rest event request
    else buildArgs rest event request
  | (_, .keyword_only) :: rest => buildArgs rest event request

/-- The keyword argument dict built in routing_middleware.py lines 32-36:
each KEYWORD_ONLY parameter named event or request adds an entry. -/
def buildKwargs {α : Type} (params : List (String × ParamKind)) (event : α)
    (request : Request) : List (String × Arg α) :=
  match params with
  | [] => []
  | (_, .positional_or_keyword) :: rest => buildKwargs rest event request
  | (name, .keyword_only) :: rest =>
    if name == "event" then ("event", Arg.event event) :: buildKwargs rest event request
    else if name == "request" then ("request", Arg.request request) :: buildKwargs rest event request
    else buildKwargs rest event request

/-- Embedding of RoutingMiddleware.validate_chema (routing_middleware.py
lines 41-54): it reads request.body — an attribute Request never defines, so
the access raises AttributeError — then would dispatch on isinstance(body,
dict) between model_validate and model_validate_json. -/
def RoutingMiddleware.validate_chema {α : Type} (schema : Schema α)
    (request : Request) : Except PyError α :=
  match requestGetattr request "body" with
  | .error e => .error e
  | .ok (.json (Json.obj fields)) => schema.model_validate (Json.obj fields)
  | .ok v => schema.model_validate_json v

/-- Embedding of RoutingMiddleware.handle (routing_middleware.py lines
12-39): scan the routes in order; on the first route whose routing_key
equals the request routing key, validate the schema (an exception there
propagates with no handler invoked), resolve the handler arguments by
signature inspection and call the handler, then return. When no route
matches, the loop ends and the method returns None, issuing no ack, no
reject and no error. -/
def RoutingMiddleware.handle {α : Type} (routes : List (Route α))
    (request : Request) : HandleResult α :=
  match routes with
  | [] => ⟨[], [], none⟩
  | route :: rest =>
    if request.routing_key == route.routing_key then
      match RoutingMiddleware.validate_chema route.event_schema request with
      | .error e => ⟨[], [], some e⟩
      | .ok event =>
        let args := buildArgs route.handler.params event request
        let kwargs := buildKwargs route.handler.params event request
        match route.handler.call args kwargs with
        | .ok _ => ⟨[⟨args, kwargs⟩], [], none⟩
        | .error e => ⟨[⟨args, kwargs⟩], [], some e⟩
    else RoutingMiddleware.handle rest request

/-- The validated model for the order scenario: an object with an integer
field order_id. -/
structure OrderModel where
  order_id : Int

/-- Test pydantic schema for the scenario of the spec: a model with a
required field order_id. model_validate succeeds exactly when the decoded
dict carries a numeric order_id; everything else is a ValidationError. -/
def orderSchema : Schema OrderModel :=
  { model_validate := fun j =>
      match j with
      | Json.obj fields =>
        match fields.find? (fun p => p.1 == "order_id") with
        | some (_, Json.num n) => .ok ⟨n⟩
        | _ => .error ⟨"ValidationError", "Field required: order_id"⟩
      | _ => .error ⟨"ValidationError", "Input should be an object"⟩
    model_validate_json := fun _ =>
      .error ⟨"ValidationError", "Invalid JSON input"⟩ }

/-- Test handler for the scenario: one positional parameter named event,
returning normally. -/
def orderHandler : Handler OrderModel :=
  { params := [("event", .positional_or_keyword)]
    call := fun _ _ => .ok () }

/-- The registered route of the scenario. -/
def orderRoute : Route OrderModel :=
  { routing_key := "svc.orders.created"
    event_schema := orderSchema
    handler := orderHandler }

/-- Request built from a message with routing key svc.orders.created and
body with order_id 7. -/
def orderReqOk : Request :=
  { message := Json.obj [("order_id", Json.num 7)]
    routing_key := "svc.orders.created"
    message_id := some "m-1" }

/-- Request built from the same routing key with an empty JSON object
body. -/
def orderReqEmpty : Request :=
  { message := Json.obj []
    routing_key := "svc.orders.created"
    message_id := some "m-2" }

/-- C2 (code bug): in the scenario of the spec — route svc.orders.created
with a schema requiring order_id — the dispatcher never reaches validation
or the handler: validate_chema reads request.body, an attribute that
Request.__init__ never assigns (it stores the decoded body in the attribute
message), so both the valid body with order_id 7 and the empty body raise
AttributeError and the handler is not invoked in either case. The spec
expects a handler invocation with order_id equal to 7 for the former and a
validation failure for the latter. -/
theorem routing_scenario_attribute_error :
    (RoutingMiddleware.handle [orderRoute] orderReqOk).invoked = []
    ∧ (RoutingMiddleware.handle [orderRoute] orderReqOk).error =
        some ⟨"AttributeError", "Request object has no attribute body"⟩
    ∧ (RoutingMiddleware.handle [orderRoute] orderReqEmpty).invoked = []
    ∧ (RoutingMiddleware.handle [orderRoute] orderReqEmpty).error =
        some ⟨"AttributeError", "Request object has no attribute body"⟩ :=
  ⟨rfl, rfl, rfl, rfl⟩

/-- C10: when no registered route has a pattern equal to the request routing
key, the dispatcher returns with no handler invocation, no error, and no ack
or reject of its own. -/
theorem no_match_returns_silently {α : Type} (routes : List (Route α))
    (request : Request)
    (h : ∀ r ∈ routes, r.routing_key ≠ request.routing_key) :
    RoutingMiddleware.handle routes request = ⟨[], [], none⟩ := by
  induction routes with
  | nil => rfl
  | cons route rest ih =>
    have hr : route.routing_key ≠ request.routing_key :=
      h route (List.mem_cons_self _ _)
    have hb : (request.routing_key == route.routing_key) = false := by
      simp only [beq_eq_false_iff_ne]
      exact fun hx => hr hx.symm
    simp only [RoutingMiddleware.handle, hb, Bool.false_eq_true, if_false]
    exact ih (fun r hmem => h r (List.mem_cons_of_mem _ hmem))

/-- Trivial schema and handler used to witness the no-match case. -/
def unitRoute : Route Unit :=
  { routing_key := "svc.orders.created"
    event_schema := { model_validate := fun _ => .ok (), model_validate_json := fun _ => .ok () }
    handler := { params := [], call := fun _ _ => .ok () } }

/-- Request whose routing key matches no registered route. -/
def unmatchedReq : Request :=
  { message := Json.obj []
    routing_key := "svc.payments.created"
    message_id := some "m-4" }

/-- Witness for C10 at a concrete route table and request. -/
theorem no_match_returns_silently_witness :
    (∀ r ∈ [unitRoute], r.routing_key ≠ unmatchedReq.routing_key)
    ∧ RoutingMiddleware.handle [unitRoute] unmatchedReq = ⟨[], [], none⟩ :=
  have h : ∀ r ∈ [unitRoute], r.routing_key ≠ unmatchedReq.routing_key := by
    intro r hmem
    rw [List.mem_singleton.mp hmem]
    decide
  ⟨h, no_match_returns_silently [unitRoute] unmatchedReq h⟩

/-- Result of one middleware stage: the ordered log of observable stage
events and the exception propagated out of the stage, if any. -/
structure MwOut where
  trace : List String
  error : Option PyError

/-- A middleware stage (middleware_interface.py): handle receives the
request and a continuation that runs the rest of the chain. -/
structure Middleware where
  handle : Request → (Unit → MwOut) → MwOut

/-- Embedding of MiddlewareManager.add_middleware
(middleware_manager.py lines 9-14): when the chain is empty the new stage
becomes the head, otherwise it is linked after the current tail; in both
cases it becomes the new tail. On the linked list this is append at the
end. -/
def addMiddleware (chain : List Middleware) (m : Middleware) : List Middleware :=
  chain ++ [m]

/-- Embedding of the nested run_middleware of MiddlewareManager.execute
(middleware_manager.py lines 16-21): the head stage is invoked with a
continuation closing over middleware.next. The attribute next of the tail
stage is never assigned by add_middleware, so if the tail stage invokes its
continuation the attribute access middleware.next raises AttributeError;
for an empty chain the head is None and nothing runs. -/
def runChain (request : Request) : List Middleware → MwOut
  | [] => ⟨[], none⟩
  | [m] =>
    m.handle request (fun _ =>
      ⟨[], some ⟨"AttributeError", "middleware object has no attribute next"⟩⟩)
  | m :: m2 :: rest => m.handle request (fun _ => runChain request (m2 :: rest))

/-- MiddlewareManager.execute: run the chain from its head. -/
def executeChain (chain : List Middleware) (request : Request) : MwOut :=
  runChain request chain

/-- A test stage in the style of LoggerMiddlware: logs a before event,
awaits the continuation, and logs an after event when the continuation
returned normally; an exception from the continuation propagates and skips
the after logic. -/
def passStage (name : String) : Middleware :=
  ⟨fun _ next =>
    let r := next ()
    match r.error with
    | none => ⟨(name ++ "-before") :: r.trace ++ [name ++ "-after"], none⟩
    | some e => ⟨(name ++ "-before") :: r.trace, some e⟩⟩

/-- A test stage that runs its before logic and returns without invoking
its continuation (short-circuit). -/
def stopStage (name : String) : Middleware :=
  ⟨fun _ _ => ⟨[name ++ "-before"], none⟩⟩

/-- A terminal dispatcher stage: performs its dispatch work and returns
without invoking the continuation, as RoutingMiddleware.handle does. -/
def termStage (name : String) : Middleware :=
  ⟨fun _ _ => ⟨[name], none⟩⟩

/-- Request fed through the middleware chain scenario. -/
def chainReq : Request :=
  { message := Json.obj []
    routing_key := "svc.orders.created"
    message_id := some "m-5" }

/-- C7: for the chain built by appending A, B and the terminal dispatcher D
in that order, execution runs the before logic of A, then of B, then D, then
the after logic of B, then of A; and when A does not invoke its
continuation, neither B nor D runs. -/
theorem middleware_order_scenario :
    executeChain
        (addMiddleware (addMiddleware (addMiddleware [] (passStage "A"))
          (passStage "B")) (termStage "D")) chainReq
      = ⟨["A-before", "B-before", "D", "B-after", "A-after"], none⟩
    ∧ executeChain
        (addMiddleware (addMiddleware (addMiddleware [] (stopStage "A"))
          (passStage "B")) (termStage "D")) chainReq
      = ⟨["A-before"], none⟩ :=
  ⟨rfl, rfl⟩

/-- How the launch of one processing unit went inside the try block of
Builder.__consume: either the semaphore acquisition, task creation and
callback registration all succeeded, or one of them raised (a structural
failure, distinct from any handler failure, which only ever surfaces inside
the created task). -/
inductive LaunchOutcome where
  | launched
  | failed (e : PyError)

/-- Loop-side effects of Builder.__consume for one inbound message. -/
inductive ConsumeAction where
  | acquireSlot
  | spawnUnit (m : InMessage)
  | releaseSlot
  | logError (s : String)
  | reject (requeue : Bool)

/-- The log line of builder.py line 153. -/
def launchFailMsg (m : InMessage) (e : PyError) : String :=
  "Failed to create task for message:" ++ optStr m.message_id ++ ": " ++ e.message

/-- Embedding of the per-message body of Builder.__consume (builder.py lines
142-154). On the normal path the loop acquires the semaphore, creates the
handler task and releases the semaphore when the async-with block exits. If
the try block raises, the except branch logs the failure and rejects the
message with requeue True; no task runs for it and nothing is published. -/
def consumeStep (m : InMessage) (r : LaunchOutcome) : List ConsumeAction :=
  match r with
  | .launched => [.acquireSlot, .spawnUnit m, .releaseSlot]
  | .failed e => [.logError (launchFailMsg m e), .reject true]

/-- The consumption loop over an inbound message sequence, each paired with
how its launch went: the async-for continues with the next message after
both the normal and the except branch. -/
def consumeLoop : List (InMessage × LaunchOutcome) → List ConsumeAction
  | [] => []
  | (m, r) :: rest => consumeStep m r ++ consumeLoop rest

/-- C9: a message whose slot acquisition or unit launch fails structurally
contributes exactly a log entry and a reject with requeue true — no handler
unit is spawned and no publish exists among the loop actions at all, so its
retry counter is untouched — and the loop still processes all preceding and
following messages unchanged. -/
theorem structural_failure_requeue (pre post : List (InMessage × LaunchOutcome))
    (m : InMessage) (e : PyError) :
    consumeLoop (pre ++ (m, .failed e) :: post)
      = consumeLoop pre
        ++ ConsumeAction.logError (launchFailMsg m e)
          :: ConsumeAction.reject true :: consumeLoop post := by
  induction pre with
  | nil => rfl
  | cons p rest ih =>
    obtain ⟨pm, pr⟩ := p
    simp only [List.cons_append, consumeLoop, List.append_assoc]
    exact congrArg (consumeStep pm pr ++ ·) ih

/-- Events of the cooperative (single-threaded asyncio) execution of
Builder.__consume together with the handler tasks it creates, for message
number i: the loop acquires the semaphore, creates the handler task
(asyncio.create_task schedules it without running it), and releases the
semaphore at the async-with exit; independently, the scheduled handler task
starts at some later suspension point of the event loop and ends at a yet
later one. -/
inductive Ev where
  | acq (i : Nat)
  | spawn (i : Nat)
  | rel (i : Nat)
  | hstart (i : Nat)
  | hend (i : Nat)
deriving DecidableEq, Repr

/-- The loop-side event sequence for the first n messages, read off the body
of Builder.__consume (builder.py lines 142-151): per message, semaphore
acquisition, task creation, then semaphore release when the async-with
block exits — the block contains only create_task and add_done_callback and
never awaits the created task, so the release is unconditional and
immediate. -/
def loopEvents : Nat → List Ev
  | 0 => []
  | n + 1 => loopEvents n ++ [.acq n, .spawn n, .rel n]

/-- Whether an event is performed by the consumption loop itself (the
handler start and end events belong to the created tasks). -/
def isLoopEv : Ev → Bool
  | .acq _ => true
  | .spawn _ => true
  | .rel _ => true
  | _ => false

/-- Semaphore discipline along a trace, starting from the given number of
free slots: acquisitions need a free slot and take it, releases return one.
Only the loop events touch the semaphore — Builder.__message_handler and
the handler tasks never do. -/
def semOk : Nat → List Ev → Bool
  | _, [] => true
  | s, .acq _ :: rest => decide (0 < s) && semOk (s - 1) rest
  | s, .rel _ :: rest => semOk (s + 1) rest
  | s, _ :: rest => semOk s rest

/-- Membership test on a list of message numbers. -/
def listHasNat : List Nat → Nat → Bool
  | [], _ => false
  | x :: xs, k => (x == k) || listHasNat xs k

/-- Task lifecycle discipline along a trace: a task may be spawned once, may
start only after being spawned, and may end only after starting; the
accumulators carry the spawned, started and ended task numbers. -/
def tasksOk : List Ev → List Nat → List Nat → List Nat → Bool
  | [], _, _, _ => true
  | .spawn i :: rest, sp, st, en =>
    !(listHasNat sp i) && tasksOk rest (i :: sp) st en
  | .hstart i :: rest, sp, st, en =>
    listHasNat sp i && !(listHasNat st i) && tasksOk rest sp (i :: st) en
  | .hend i :: rest, sp, st, en =>
    listHasNat st i && !(listHasNat en i) && tasksOk rest sp st (i :: en)
  | _ :: rest, sp, st, en => tasksOk rest sp st en

/-- A trace is a possible cooperative execution of the consumption of n
messages under the given concurrency limit when its loop events are exactly
the loop event sequence in program order, the semaphore discipline holds
from limit free slots, and every handler task obeys its lifecycle. -/
def validSchedule (limit n : Nat) (t : List Ev) : Bool :=
  (t.filter isLoopEv == loopEvents n) && semOk limit t && tasksOk t [] [] []

/-- Number of handler invocations executing (started and not yet ended)
after a trace, on top of the given starting count. -/
def inflight : List Ev → Nat → Nat
  | [], k => k
  | .hstart _ :: rest, k => inflight rest (k + 1)
  | .hend _ :: rest, k => inflight rest (k - 1)
  | _ :: rest, k => inflight rest k

/-- A concrete cooperative schedule of two messages under concurrency limit
1: the loop launches handler 0 and releases the slot at the async-with exit,
handler 0 starts at the next suspension point and is still running when the
loop launches handler 1, which then also starts. -/
def overLimitTrace : List Ev :=
  [.acq 0, .spawn 0, .rel 0, .hstart 0, .acq 1, .spawn 1, .rel 1, .hstart 1]

/-- C1 (code bug): with concurrency limit 1 and two messages there is a
valid cooperative schedule of the code after which two handler invocations
execute concurrently. The semaphore of builder.py line 145 is released when
the async-with block exits, immediately after asyncio.create_task returns
and before the created handler task has run, so the slot is not held for
the lifetime of the processing unit and the configured limit does not bound
the number of concurrently executing handlers. -/
theorem concurrency_limit_violation :
    validSchedule 1 2 overLimitTrace = true
    ∧ inflight overLimitTrace 0 = 2
    ∧ 1 < inflight overLimitTrace 0 := by decide

/-- Whether the first character list begins the second. -/
def leadsWith : List Char → List Char → Bool
  | [], _ => true
  | _ :: _, [] => false
  | a :: as, b :: bs => a == b && leadsWith as bs

/-- Whether the first character list occurs contiguously in the second. -/
def substrAt : List Char → List Char → Bool
  | needle, [] => needle.isEmpty
  | needle, h :: t => leadsWith needle (h :: t) || substrAt needle t

/-- The Python substring test, needle in hay, used by the route check of
builder.py line 130. -/
def strIn (needle hay : String) : Bool := substrAt needle.data hay.data

/-- Membership test on a list of strings, as the Python membership test on
the seen_routes collection. -/
def listHasStr : List String → String → Bool
  | [], _ => false
  | x :: xs, k => (x == k) || listHasStr xs k

/-- The duplicate-collecting loop of Builder.__set_routes lines 121-129:
walk the routing keys, keeping the keys already seen; a key met again is
appended to the duplicates list. -/
def dupScan : List String → List String → List String
  | [], _ => []
  | k :: rest, seen =>
    if listHasStr seen k then k :: dupScan rest seen
    else dupScan rest (k :: seen)

/-- Spec-side duplication predicate: some key occurs again later in the
list, that is, two positions hold textually equal patterns. -/
def specHasDup : List String → Bool
  | [] => false
  | k :: rest => listHasStr rest k || specHasDup rest

/-- Whether some element of the first list occurs in the second. -/
def anyInList : List String → List String → Bool
  | [], _ => false
  | k :: rest, seen => listHasStr seen k || anyInList rest seen

theorem strBeqComm (a b : String) : (a == b) = (b == a) := by
  cases h : a == b with
  | true =>
    have he : a = b := beq_iff_eq.mp h
    simp [he]
  | false =>
    cases h2 : b == a with
    | false => rfl
    | true =>
      have he : a = b := (beq_iff_eq.mp h2).symm
      rw [he] at h
      simp at h

theorem anyInList_cons_seen (rest : List String) (k : String) (seen : List String) :
    anyInList rest (k :: seen) = (listHasStr rest k || anyInList rest seen) := by
  induction rest with
  | nil => rfl
  | cons x xs ih =>
    simp only [anyInList, listHasStr, ih, strBeqComm k x]
    simp [Bool.or_assoc, Bool.or_comm, Bool.or_left_comm]

theorem anyInList_nil_seen (keys : List String) : anyInList keys [] = false := by
  induction keys with
  | nil => rfl
  | cons k rest ih => simp [anyInList, listHasStr, ih]

theorem dupScan_eq_nil (keys : List String) : ∀ seen : List String,
    dupScan keys seen = [] ↔
      (specHasDup keys = false ∧ anyInList keys seen = false) := by
  induction keys with
  | nil => intro seen; simp [dupScan, specHasDup, anyInList]
  | cons k rest ih =>
    intro seen
    cases h : listHasStr seen k with
    | true => simp [dupScan, h, specHasDup, anyInList]
    | false =>
      simp only [dupScan, h, Bool.false_eq_true, if_false, ih,
        anyInList_cons_seen, specHasDup, anyInList, Bool.or_eq_false_iff]
      tauto

/-- An embedded Python Router instance (router.py): its route list and its
pattern prefix (the attribute named prefix in the source, here pfx). -/
structure Router (α : Type) where
  pfx : String
  routes : List (Route α)

/-- Pattern merging of Builder.__set_routes lines 116-120: a route of a
router with nonempty prefix has its routing key replaced by the prefix, a
dot and the original key; otherwise it is kept as is. -/
def withPfx {α : Type} (p : String) (r : Route α) : Route α :=
  if p == "" then r else { r with routing_key := p ++ "." ++ r.routing_key }

/-- All routes of all included routers, each with its router prefix
applied, in registration order. -/
def mergeRoutes {α : Type} : List (Router α) → List (Route α)
  | [] => []
  | ro :: rest => ro.routes.map (withPfx ro.pfx) ++ mergeRoutes rest

/-- The routing keys of a route list, in order. -/
def keysOf {α : Type} : List (Route α) → List String
  | [] => []
  | r :: rest => r.routing_key :: keysOf rest

/-- The invalid-route collecting loop of Builder.__set_routes lines
124-131: a route whose key does not contain the service routing key as a
substring is appended to the invalid list. -/
def invalidRoutes {α : Type} (service : String) : List (Route α) → List (Route α)
  | [] => []
  | r :: rest =>
    if strIn service r.routing_key then invalidRoutes service rest
    else r :: invalidRoutes service rest

/-- Spec-side invalidity predicate: some pattern lacks the mandatory
service segment as a substring. -/
def hasInvalid {α : Type} (service : String) : List (Route α) → Bool
  | [] => false
  | r :: rest => !(strIn service r.routing_key) || hasInvalid service rest

theorem invalidRoutes_eq_nil {α : Type} (service : String)
    (routes : List (Route α)) :
    invalidRoutes service routes = [] ↔ hasInvalid service routes = false := by
  induction routes with
  | nil => simp [invalidRoutes, hasInvalid]
  | cons r rest ih =>
    cases h : strIn service r.routing_key with
    | true => simp [invalidRoutes, hasInvalid, h, ih]
    | false => simp [invalidRoutes, hasInvalid, h]

/-- Embedding of Builder.__set_routes (builder.py lines 115-135): merge the
routers under their prefixes, collect textual duplicates among the merged
keys and routes lacking the service routing key; raise a generic Exception
reading Duplicated Routes Are not Allowed when any duplicate exists, else a
generic Exception naming the service routing key when any invalid route
exists, else succeed with the merged route list. -/
def set_routes {α : Type} (service : String) (routers : List (Router α)) :
    Except PyError (List (Route α)) :=
  let routes := mergeRoutes routers
  let duplicates := dupScan (keysOf routes) []
  let invalid := invalidRoutes service routes
  if duplicates.length ≠ 0 then
    .error ⟨"Exception", "Duplicated Routes Are not Allowed"⟩
  else if invalid.length ≠ 0 then
    .error ⟨"Exception",
      "Routing Keys Should Include The Service Routing Key: " ++ service⟩
  else .ok routes

/-- Whether the embedded call raised. -/
def failsWith {α : Type} : Except PyError α → Bool
  | .error _ => true
  | .ok _ => false

/-- Trivial route used in the duplicate-route demonstration. -/
def dupDemoRoute : Route Unit :=
  { routing_key := "svc.orders.created"
    event_schema := { model_validate := fun _ => .ok ()
                      model_validate_json := fun _ => .ok () }
    handler := { params := [], call := fun _ _ => .ok () } }

/-- One router registering the same pattern twice. -/
def demoDupRouters : List (Router Unit) :=
  [{ pfx := "", routes := [dupDemoRoute, dupDemoRoute] }]

/-- C6 counterexample: on a route set with a textually duplicated pattern
the code raises the builtin Exception class with a distinguishing message,
not an error class named DuplicateRouteError — no such class exists in the
source. -/
theorem set_routes_error_class_counterexample :
    set_routes "svc" demoDupRouters =
      .error ⟨"Exception", "Duplicated Routes Are not Allowed"⟩
    ∧ ("Exception" : String) ≠ "DuplicateRouteError" :=
  ⟨rfl, by decide⟩

/-- C6 as amended: route finalization fails exactly when two merged
patterns are textually equal or some merged pattern lacks the service
routing key as a substring; the duplicate cause is reported first, and the
two causes are distinguished only by the message of a generic Exception —
Duplicated Routes Are not Allowed versus Routing Keys Should Include The
Service Routing Key — not by dedicated error classes. -/
theorem set_routes_fails_iff_distinct_messages {α : Type} (service : String)
    (routers : List (Router α)) :
    (failsWith (set_routes service routers) = true ↔
      (specHasDup (keysOf (mergeRoutes routers)) = true
        ∨ hasInvalid service (mergeRoutes routers) = true))
    ∧ (specHasDup (keysOf (mergeRoutes routers)) = true →
        set_routes service routers =
          .error ⟨"Exception", "Duplicated Routes Are not Allowed"⟩)
    ∧ (specHasDup (keysOf (mergeRoutes routers)) = false →
        hasInvalid service (mergeRoutes routers) = true →
        set_routes service routers =
          .error ⟨"Exception",
            "Routing Keys Should Include The Service Routing Key: " ++ service⟩) := by
  have hdup : (dupScan (keysOf (mergeRoutes routers)) []).length ≠ 0 ↔
      specHasDup (keysOf (mergeRoutes routers)) = true := by
    rw [Ne, List.length_eq_zero, dupScan_eq_nil,
      anyInList_nil_seen (keysOf (mergeRoutes routers))]
    simp [Bool.not_eq_false]
  have hinv : (invalidRoutes service (mergeRoutes routers)).length ≠ 0 ↔
      hasInvalid service (mergeRoutes routers) = true := by
    rw [Ne, List.length_eq_zero, invalidRoutes_eq_nil]
    simp [Bool.not_eq_false]
  by_cases hd : specHasDup (keysOf (mergeRoutes routers)) = true
  · have hc : (dupScan (keysOf (mergeRoutes routers)) []).length ≠ 0 := hdup.mpr hd
    refine ⟨?_, fun _ => ?_, fun hnd _ => absurd hd (by simp [hnd])⟩
    · simp only [set_routes]
      rw [if_pos hc]
      simp [failsWith, hd]
    · simp only [set_routes]
      rw [if_pos hc]
  · have hnd : specHasDup (keysOf (mergeRoutes routers)) = false := by
      cases hx : specHasDup (keysOf (mergeRoutes routers)) with
      | false => rfl
      | true => exact absurd hx hd
    have hc : ¬ (dupScan (keysOf (mergeRoutes routers)) []).length ≠ 0 :=
      fun hx => hd (hdup.mp hx)
    by_cases hi : hasInvalid service (mergeRoutes routers) = true
    · have hc2 : (invalidRoutes service (mergeRoutes routers)).length ≠ 0 :=
        hinv.mpr hi
      refine ⟨?_, fun hx => absurd hx hd, fun _ _ => ?_⟩
      · simp only [set_routes]
        rw [if_neg hc, if_pos hc2]
        simp [failsWith, hi]
      · simp only [set_routes]
        rw [if_neg hc, if_pos hc2]
    · have hni : hasInvalid service (mergeRoutes routers) = false := by
        cases hx : hasInvalid service (mergeRoutes routers) with
        | false => rfl
        | true => exact absurd hx hi
      have hc2 : ¬ (invalidRoutes service (mergeRoutes routers)).length ≠ 0 :=
        fun hx => hi (hinv.mp hx)
      refine ⟨?_, fun hx => absurd hx hd, fun _ hx => absurd hx hi⟩
      simp only [set_routes]
      rw [if_neg hc, if_neg hc2]
      simp [failsWith, hnd, hni]

/-- Witness for C6 at the concrete duplicated route set: the duplicate
predicate holds and the theorem yields the duplicate-message Exception. -/
theorem set_routes_fails_iff_distinct_messages_witness :
    specHasDup (keysOf (mergeRoutes demoDupRouters)) = true
    ∧ set_routes "svc" demoDupRouters =
        .error ⟨"Exception", "Duplicated Routes Are not Allowed"⟩ :=
  ⟨by decide,
   (set_routes_fails_iff_distinct_messages "svc" demoDupRouters).2.1 (by decide)⟩

/-- An aio_pika queue, identified by the channel it belongs to and its
name. -/
structure PikaQueue where
  channel : Nat
  name : String
deriving DecidableEq, Repr

/-- An aio_pika topic exchange, identified by the channel it belongs to. -/
structure PikaExchange where
  channel : Nat
deriving DecidableEq, Repr

/-- The queue-related attribute state of a Builder instance. queueAttr is
the attribute _queue (assigned None in __init__ and by the public queue
setter); builderQueueAttr is the name-mangled private attribute
_Builder__queue, which __init__ never assigns — none here means the
attribute does not exist on the instance, so reading it raises
AttributeError. -/
structure BuilderState where
  queue_name : Option String
  routing_key : String
  queueAttr : Option PikaQueue
  builderQueueAttr : Option PikaQueue
  amqp_channel : Option Nat
  exchange : Option PikaExchange
deriving DecidableEq, Repr

/-- Builder.__init__ (builder.py lines 16-29) for the queue-related
attributes: _queue starts as None and _Builder__queue is never created. -/
def builderInit (routing_key : String) (queue_name : Option String) : BuilderState :=
  { queue_name := queue_name
    routing_key := routing_key
    queueAttr := none
    builderQueueAttr := none
    amqp_channel := none
    exchange := none }

/-- The public queue setter (builder.py lines 35-42): after an isinstance
check (always satisfied here by typing), it validates the channel when one
is configured and stores the queue in the attribute _queue. -/
def builderSetQueue (st : BuilderState) (q : PikaQueue) :
    Except PyError BuilderState :=
  if st.amqp_channel.isSome ∧ st.amqp_channel ≠ some q.channel then
    .error ⟨"ValueError", "Queue must belong to the configured AMQP channel"⟩
  else .ok { st with queueAttr := some q }

/-- Embedding of Builder.__set_queue (builder.py lines 88-110): it requires
an exchange on the configured channel; when _queue holds a Queue it only
binds that queue — the name-mangled attribute _Builder__queue is not
assigned on this path — and when _queue is not a Queue it declares a new
queue from queue_name and assigns it to self.__queue, which is the only
assignment of _Builder__queue in the class. -/
def builderSetQueuePrivate (st : BuilderState) : Except PyError BuilderState :=
  match st.exchange with
  | none => .error ⟨"ValueError", "Exchange is required"⟩
  | some ex =>
    if some ex.channel ≠ st.amqp_channel then
      .error ⟨"ValueError", "Exchange must belong to the configured AMQP channel"⟩
    else
      match st.queueAttr with
      | some q =>
        if some q.channel ≠ st.amqp_channel then
          .error ⟨"ValueError", "Queue must belong to the configured AMQP channel"⟩
        else .ok st
      | none =>
        match st.amqp_channel with
        | none => .error ⟨"ValueError", "AMQP channel is required or manually set a queue"⟩
        | some ch =>
          match st.queue_name with
          | none =>
            .error ⟨"ValueError",
              "Manually set a queue, or provide a queue name to automatically create one"⟩
          | some nm => .ok { st with builderQueueAttr := some ⟨ch, nm⟩ }

/-- The attribute read self.__queue at the start of Builder.__consume
(builder.py line 140): when _Builder__queue was never assigned, Python
raises AttributeError. -/
def builderConsumeQueueRead (st : BuilderState) : Except PyError PikaQueue :=
  match st.builderQueueAttr with
  | some q => .ok q
  | none => .error ⟨"AttributeError", "Builder object has no attribute _Builder__queue"⟩

/-- C8: when the queue is supplied through the public setter, queue setup
succeeds by taking the bind-only branch, which never assigns the
name-mangled attribute _Builder__queue; the consumption loop then reads
that attribute and raises AttributeError. -/
theorem setter_queue_consume_attribute_error
    (st st2 st3 : BuilderState) (q : PikaQueue)
    (h0 : st.builderQueueAttr = none)
    (h1 : builderSetQueue st q = .ok st2)
    (h2 : builderSetQueuePrivate st2 = .ok st3) :
    builderConsumeQueueRead st3 =
      .error ⟨"AttributeError", "Builder object has no attribute _Builder__queue"⟩ := by
  have hst2 : st2 = { st with queueAttr := some q } := by
    by_cases hcond : st.amqp_channel.isSome ∧ st.amqp_channel ≠ some q.channel
    · rw [builderSetQueue, if_pos hcond] at h1
      exact absurd h1 (by simp)
    · rw [builderSetQueue, if_neg hcond] at h1
      exact (Except.ok.injEq _ _ ▸ h1).symm
  have hq2 : st2.queueAttr = some q := by rw [hst2]
  have hb2 : st2.builderQueueAttr = none := by rw [hst2]; exact h0
  have hst3 : st3 = st2 := by
    rw [builderSetQueuePrivate] at h2
    split at h2
    · exact absurd h2 (by simp)
    · split at h2
      · exact absurd h2 (by simp)
      · split at h2
        · split at h2
          · exact absurd h2 (by simp)
          · exact (Except.ok.injEq _ _ ▸ h2).symm
        · simp_all
  rw [builderConsumeQueueRead, hst3, hb2]

/-- Concrete builder state with channel 1 configured and a topic exchange
on it, no queue yet. -/
def demoBuilderSt : BuilderState :=
  { queue_name := some "orders"
    routing_key := "svc"
    queueAttr := none
    builderQueueAttr := none
    amqp_channel := some 1
    exchange := some ⟨1⟩ }

/-- The queue supplied through the public setter in the witness. -/
def demoQueue : PikaQueue := ⟨1, "orders"⟩

/-- Witness for C8: the concrete builder accepts the queue through the
setter, private queue setup succeeds on the bind-only branch, and the
consumption loop read raises AttributeError. -/
theorem setter_queue_consume_attribute_error_witness :
    demoBuilderSt.builderQueueAttr = none
    ∧ builderSetQueue demoBuilderSt demoQueue =
        .ok { demoBuilderSt with queueAttr := some demoQueue }
    ∧ builderSetQueuePrivate { demoBuilderSt with queueAttr := some demoQueue } =
        .ok { demoBuilderSt with queueAttr := some demoQueue }
    ∧ builderConsumeQueueRead { demoBuilderSt with queueAttr := some demoQueue } =
        .error ⟨"AttributeError", "Builder object has no attribute _Builder__queue"⟩ :=
  ⟨rfl, rfl, rfl,
   setter_queue_consume_attribute_error demoBuilderSt
     { demoBuilderSt with queueAttr := some demoQueue }
     { demoBuilderSt with queueAttr := some demoQueue }
     demoQueue rfl rfl rfl⟩

end Wasla
